import Mathlib

/-!
Verification of the RFID access-control server (Raspberry-ESP32 Card Manager).

Shallow embedding of the Python sources:
  - `src/server/card_manager.py`: the administrative CRUD tool over the
    persisted Authorization Store (`load_cards`, `save_cards`, `add_card`,
    `delete_card`).
  - `src/server/main.py`: the access-control server (`RFIDServer`):
    `load_authorized_cards`, `is_card_authorized`, `save_access_log`,
    `handle_client`, `_unlock_door`.

Persisted JSON files are modelled by `FileState`: a file is missing,
malformed (unparsable JSON), or holds a well-formed value.  JSON parsing and
printing themselves are the Python standard library's `json` module and are
modelled as faithful (a written value reads back as itself); on top of that,
an explicit field-level encoder/decoder (`encodeCard` / `decodeCard`) models
the optional-field object representation used by `card.get(...)`.

Records mirror JSON dictionaries whose fields may be absent: every
`card.get("k")` access in the Python source corresponds to an `Option` field
here, and `card.get("authorized", False)` to `Option.getD false`.
-/

/-- One entry of the Authorization Store (`authorized_cards.json`).
The Python code reads fields with `dict.get`, so each field may be absent:
`id`, `name`, `authorized` are `Option`s. -/
structure Card where
  id : Option String
  name : Option String
  authorized : Option Bool
deriving DecidableEq, Repr

/-- The Authorization Store collection: the `"cards"` list of the JSON file. -/
structure Store where
  cards : List Card
deriving DecidableEq, Repr

/-- One entry of the Audit Log (`access_log.json`), as built by
`RFIDServer.save_access_log`: these fields are always present. -/
structure LogEntry where
  card_id : String
  timestamp : String
  authorized : Bool
deriving DecidableEq, Repr

/-- State of a persisted JSON file: absent, present but unparsable, or
holding a parsed value.  `FileNotFoundError` corresponds to `missing` and
`json.JSONDecodeError` to `malformed`. -/
inductive FileState (α : Type) where
  | missing : FileState α
  | malformed : FileState α
  | good : α → FileState α
deriving DecidableEq, Repr

/-! ### card_manager.py -/

/-- `card_manager.load_cards`: parse `authorized_cards.json`; on
`FileNotFoundError` or `JSONDecodeError` return `{"cards": []}`. -/
def load_cards : FileState Store → Store
  | .good d => d
  | .missing => ⟨[]⟩
  | .malformed => ⟨[]⟩

/-- `card_manager.save_cards`: overwrite `authorized_cards.json` with the
given data (the file then parses back to exactly that data). -/
def save_cards (d : Store) : FileState Store := .good d

/-- The membership test `card.get("id") == card_id` used by the loops in
`add_card`, `delete_card` and `is_card_authorized`. -/
def cardMatches (card_id : String) (c : Card) : Bool := c.id == some card_id

/-- Outcome of `card_manager.add_card`: either the card was appended and
saved, or a duplicate id was found and reported (a printed conflict
message, not an exception). -/
inductive AddResult where
  | added : AddResult
  | conflict : AddResult
deriving DecidableEq, Repr

/-- `card_manager.add_card`: load the store; if some existing card has the
given id, print a conflict message and return without saving; otherwise
append `{"id": card_id, "name": name, "authorized": authorized}` and save. -/
def add_card (fs : FileState Store) (card_id name : String) (authorized : Bool) :
    FileState Store × AddResult :=
  let card_data := load_cards fs
  if card_data.cards.any (cardMatches card_id) then
    (fs, .conflict)
  else
    (save_cards ⟨card_data.cards ++ [⟨some card_id, some name, some authorized⟩]⟩, .added)

/-- `card_manager.delete_card`: load the store, keep exactly the cards whose
`id` differs from `card_id`, and save only when the count decreased (the
returned flag records whether a save happened). -/
def delete_card (fs : FileState Store) (card_id : String) : FileState Store × Bool :=
  let card_data := load_cards fs
  let remaining := (card_data.cards.filter fun c => !(cardMatches card_id c))
  if remaining.length < card_data.cards.length then
    (save_cards ⟨remaining⟩, true)
  else
    (fs, false)

/-! ### main.py : RFIDServer -/

/-- `DOOR_OPEN_SECONDS` in `main.py`. -/
def DOOR_OPEN_SECONDS : Nat := 3

/-- The `default_cards` record set written by
`RFIDServer.load_authorized_cards` when the store file is missing or
malformed. -/
def defaultCards : Store :=
  ⟨[⟨some "0x1a2b3c4d", some "Cartão de Admin", some true⟩,
    ⟨some "0xabcdef12", some "Cartão de Visitante", some false⟩]⟩

/-- `RFIDServer.load_authorized_cards`: parse the store file; on
`FileNotFoundError` or `JSONDecodeError`, WRITE `defaultCards` to the store
file and return it.  Returns the loaded store and the store file's state
after the call. -/
def load_authorized_cards : FileState Store → Store × FileState Store
  | .good d => (d, .good d)
  | .missing => (defaultCards, .good defaultCards)
  | .malformed => (defaultCards, .good defaultCards)

/-- The scan loop of `RFIDServer.is_card_authorized`: linear scan of the
`"cards"` list; on the first card whose `id` equals `card_id` return
`card.get("authorized", False)`; if none matches return `False`. -/
def lookupAuth : List Card → String → Bool
  | [], _ => false
  | c :: rest, card_id =>
    if c.id == some card_id then c.authorized.getD false else lookupAuth rest card_id

/-- `RFIDServer.is_card_authorized`: reload the store via
`load_authorized_cards` (so the file may be rewritten with `defaultCards`),
then scan.  Returns the decision and the store file's state after the call. -/
def is_card_authorized (fs : FileState Store) (card_id : String) : Bool × FileState Store :=
  let loaded := load_authorized_cards fs
  (lookupAuth loaded.1.cards card_id, loaded.2)

/-- Reading `access_log.json` inside `save_access_log`: missing or
unparsable log file is treated as the empty list. -/
def readLog : FileState (List LogEntry) → List LogEntry
  | .good l => l
  | .missing => []
  | .malformed => []

/-- `RFIDServer.save_access_log`: read the whole log (missing/corrupt as
empty), append one `{card_id, timestamp, authorized}` entry, and write the
whole collection back. -/
def save_access_log (logFile : FileState (List LogEntry)) (card_id timestamp : String)
    (authorized : Bool) : FileState (List LogEntry) :=
  .good (readLog logFile ++ [⟨card_id, timestamp, authorized⟩])

/-- Python's whitespace class for `str.strip()`: space, tab, newline,
carriage return, vertical tab, form feed. -/
def isSpace (c : Char) : Bool :=
  c == ' ' || c == '\t' || c == '\n' || c == '\r' || c == '\x0b' || c == '\x0c'

/-- Python's `str.strip()` with no argument: drop leading and trailing
whitespace. -/
def pyStrip (s : String) : String :=
  ⟨((s.data.dropWhile isSpace).reverse.dropWhile isSpace).reverse⟩

/-- The final `json.dump(log_data, f)` of `save_access_log` (also the
collection write used by the dashboard's clear operation): the log file
afterwards parses back to exactly the written collection. -/
def write_log (l : List LogEntry) : FileState (List LogEntry) := .good l

/-- What `client_socket.recv(1024).decode('utf-8')` delivers to
`handle_client`: either the read raises (`failure`) or a raw payload
string arrives. -/
inductive ReadResult where
  | failure : ReadResult
  | payload : String → ReadResult
deriving DecidableEq, Repr

/-- Observable outcome of one `RFIDServer.handle_client` call:
the decision computed (if any), the log entries appended by this call,
the reply sent (if any), and both files' states after the call. -/
structure HandleResult where
  decision : Option Bool
  appended : List LogEntry
  reply : Option String
  authFile : FileState Store
  logFile : FileState (List LogEntry)
deriving DecidableEq, Repr

/-- `RFIDServer.handle_client`: on a read failure the exception handler
runs and the socket is closed — no decision, no log entry, no reply.
On a delivered payload: trim it, decide via `is_card_authorized`, append
one log entry via `save_access_log`, and reply `"AUTHORIZED"` or
`"DENIED"`.  (`timestamp` stands for `datetime.now().isoformat()`.) -/
def handle_client (authFile : FileState Store) (logFile : FileState (List LogEntry))
    (timestamp : String) : ReadResult → HandleResult
  | .failure => ⟨none, [], none, authFile, logFile⟩
  | .payload raw =>
    let data := pyStrip raw
    let checked := is_card_authorized authFile data
    ⟨some checked.1,
     [⟨data, timestamp, checked.1⟩],
     some (if checked.1 then "AUTHORIZED" else "DENIED"),
     checked.2,
     save_access_log logFile data timestamp checked.1⟩

/-! ### main.py : _unlock_door, as an event trace -/

/-- Observable steps of `RFIDServer._unlock_door`: GPIO drive transitions,
a timed hold (`sleep`), or the simulation-mode print. -/
inductive LockEvent where
  | driveOpen : LockEvent
  | hold : Nat → LockEvent
  | driveClosed : LockEvent
  | simLog : Nat → LockEvent
deriving DecidableEq, Repr

/-- `RFIDServer._unlock_door`: with GPIO available it drives the relay open,
sleeps `DOOR_OPEN_SECONDS`, and drives it closed; without GPIO it prints the
simulation message (naming `DOOR_OPEN_SECONDS`) and returns at once. -/
def unlock_door (gpioAvailable : Bool) : List LockEvent :=
  if gpioAvailable then
    [.driveOpen, .hold DOOR_OPEN_SECONDS, .driveClosed]
  else
    [.simLog DOOR_OPEN_SECONDS]

/-- Total time a trace holds the door open (`sleep` durations). -/
def holdTime (tr : List LockEvent) : Nat :=
  (tr.map fun e => match e with | .hold n => n | _ => 0).sum

/-- The physical drive transitions of a trace. -/
def driveEvents (tr : List LockEvent) : List LockEvent :=
  tr.filter fun e => match e with
    | .driveOpen => true
    | .driveClosed => true
    | _ => false

/-! ### JSON object layer for the Authorization Store round-trip

`json.dump` writes each card as an object whose fields may be absent;
`json.load` parses it back and `dict.get` reads the fields.  `JVal` is the
value type actually used by the card objects (strings and booleans), a card
object is an association list, and `encodeCard`/`decodeCard` are the
dump/get pair. -/

/-- A JSON scalar appearing in a card object. -/
inductive JVal where
  | s : String → JVal
  | b : Bool → JVal
deriving DecidableEq, Repr

/-- The JSON object `json.dump` produces for one card: each present field
becomes a key. -/
def encodeCard (c : Card) : List (String × JVal) :=
  (match c.id with | some v => [("id", JVal.s v)] | none => []) ++
  (match c.name with | some v => [("name", JVal.s v)] | none => []) ++
  (match c.authorized with | some v => [("authorized", JVal.b v)] | none => [])

/-- `obj.get(k)` for a string-valued field: `None` when absent or not a
string. -/
def getStr (o : List (String × JVal)) (k : String) : Option String :=
  match o.lookup k with
  | some (JVal.s v) => some v
  | _ => none

/-- `obj.get(k)` for a boolean-valued field: `None` when absent or not a
boolean. -/
def getBool (o : List (String × JVal)) (k : String) : Option Bool :=
  match o.lookup k with
  | some (JVal.b v) => some v
  | _ => none

/-- Reading a card object back through `dict.get` on each field. -/
def decodeCard (o : List (String × JVal)) : Card :=
  ⟨getStr o "id", getStr o "name", getBool o "authorized"⟩

/-- The JSON form of the whole `"cards"` collection. -/
def encodeStore (d : Store) : List (List (String × JVal)) :=
  d.cards.map encodeCard

/-- Parsing the `"cards"` collection back. -/
def decodeStore (os : List (List (String × JVal))) : Store :=
  ⟨os.map decodeCard⟩

/-! ### Interleaving model of concurrent `save_access_log` calls

Each `handle_client` thread runs `save_access_log`, which is a
read-modify-write on `access_log.json` with no lock: it first reads the
whole collection (`json.load`), then writes the collection plus its own
entry (`json.dump`).  `raceStep` exposes those two steps as separate atomic
actions of two concurrent handler threads, so a schedule is any
interleaving of `(read i, write i)` with `read i` before `write i`. -/

/-- Atomic actions of two concurrent `save_access_log` calls: thread `i`
reads the log file, or thread `i` writes back what it read plus its entry. -/
inductive RaceAction where
  | read0 : RaceAction
  | read1 : RaceAction
  | write0 : RaceAction
  | write1 : RaceAction
deriving DecidableEq, Repr

/-- Shared log file plus each thread's local `log_data` variable (filled by
its read step). -/
structure RaceState where
  file : FileState (List LogEntry)
  local0 : Option (List LogEntry)
  local1 : Option (List LogEntry)
deriving DecidableEq, Repr

/-- One atomic step: a read loads the current file into the thread's
`log_data` (missing/corrupt as empty, exactly as in `save_access_log`); a
write stores `log_data + [entry]` back to the file.  A write before the
thread's read does nothing (schedules are expected well-formed). -/
def raceStep (e0 e1 : LogEntry) (s : RaceState) : RaceAction → RaceState
  | .read0 => { s with local0 := some (readLog s.file) }
  | .read1 => { s with local1 := some (readLog s.file) }
  | .write0 =>
    match s.local0 with
    | some l => { s with file := .good (l ++ [e0]) }
    | none => s
  | .write1 =>
    match s.local1 with
    | some l => { s with file := .good (l ++ [e1]) }
    | none => s

/-- Run a schedule of atomic actions from an initial log file. -/
def runRace (e0 e1 : LogEntry) (init : FileState (List LogEntry))
    (sched : List RaceAction) : RaceState :=
  sched.foldl (raceStep e0 e1) ⟨init, none, none⟩

/-! ## Helper lemmas -/

/-- Decoding the JSON object written for a card restores the card, whatever
subset of fields is present. -/
theorem decodeCard_encodeCard (c : Card) : decodeCard (encodeCard c) = c := by
  obtain ⟨i, n, a⟩ := c
  cases i <;> cases n <;> cases a <;> rfl

/-- A filter that loses no length keeps the whole list. -/
theorem filter_eq_of_not_length_lt {α : Type} (p : α → Bool) (l : List α)
    (h : ¬ (l.filter p).length < l.length) : l.filter p = l :=
  (List.filter_sublist l).eq_of_length (Nat.le_antisymm (List.length_filter_le p l) (Nat.le_of_not_lt h))

/-! ## Claims -/

/-- Claim C1, counterexample.  The claim says an authorization check run
while the store file is missing returns `false` for every id and never
writes to the store file.  In the code, `is_card_authorized` calls
`load_authorized_cards`, which on a missing file writes the default record
set and returns it — so checking the default admin id `"0x1a2b3c4d"`
returns `true`, and the store file is written on the check path. -/
theorem C1_counterexample :
    (is_card_authorized FileState.missing "0x1a2b3c4d").1 = true ∧
    (is_card_authorized FileState.missing "0x1a2b3c4d").2 ≠ FileState.missing := by
  decide

/-- Claim C1, amended.  While the store file is missing or malformed, the
check path writes the default record set (authorized admin card, denied
visitor card) to the store file, and the decision is taken against that
default set: `true` exactly for the default admin id `"0x1a2b3c4d"`, and
`false` for every other id. -/
theorem C1_amended (fs : FileState Store)
    (h : fs = FileState.missing ∨ fs = FileState.malformed) (cardId : String) :
    (is_card_authorized fs cardId).1 = ("0x1a2b3c4d" == cardId) ∧
    (is_card_authorized fs cardId).2 = FileState.good defaultCards := by
  have hlook : lookupAuth defaultCards.cards cardId = ("0x1a2b3c4d" == cardId) := by
    by_cases h1 : "0x1a2b3c4d" = cardId
    · simp [defaultCards, lookupAuth, h1]
    · by_cases h2 : "0xabcdef12" = cardId
      · subst h2
        simp [defaultCards, lookupAuth]
      · simp [defaultCards, lookupAuth, h1, h2]
  rcases h with h | h <;> subst h <;>
    exact ⟨hlook, rfl⟩

/-- Witness for C1_amended at a concrete input: a malformed store file and
a credential id absent from the default set. -/
theorem C1_amended_witness :
    ((FileState.malformed : FileState Store) = FileState.missing ∨
      (FileState.malformed : FileState Store) = FileState.malformed) ∧
    (is_card_authorized FileState.malformed "0xdeadbeef").1 = ("0x1a2b3c4d" == "0xdeadbeef") :=
  ⟨Or.inr rfl, (C1_amended FileState.malformed (Or.inr rfl) "0xdeadbeef").1⟩

/-- Claim C2, counterexample.  The claim says an empty (after trimming)
payload produces no decision, no log entry and no reply.  In the code there
is no empty-payload guard: `handle_client` evaluates the empty credential,
appends a log entry with empty `card_id`, and replies `"DENIED"`. -/
theorem C2_counterexample :
    (handle_client (FileState.good ⟨[]⟩) (FileState.good []) "t0" (ReadResult.payload "")).decision
      = some false ∧
    (handle_client (FileState.good ⟨[]⟩) (FileState.good []) "t0" (ReadResult.payload "")).appended
      = [⟨"", "t0", false⟩] ∧
    (handle_client (FileState.good ⟨[]⟩) (FileState.good []) "t0" (ReadResult.payload "")).reply
      = some "DENIED" := by
  decide

/-- Claim C2, amended.  A failed read indeed closes the connection with no
decision, no appended entry and no reply; but a payload that is empty after
trimming is handled like any credential: the decision for the empty id is
computed, exactly one entry with empty `card_id` is appended, and a reply is
sent. -/
theorem C2_amended (authFile : FileState Store) (logFile : FileState (List LogEntry))
    (ts : String) :
    handle_client authFile logFile ts ReadResult.failure
      = ⟨none, [], none, authFile, logFile⟩ ∧
    ∀ raw, pyStrip raw = "" →
      (handle_client authFile logFile ts (ReadResult.payload raw)).decision
          = some (is_card_authorized authFile "").1 ∧
      (handle_client authFile logFile ts (ReadResult.payload raw)).appended
          = [⟨"", ts, (is_card_authorized authFile "").1⟩] ∧
      (handle_client authFile logFile ts (ReadResult.payload raw)).reply
          = some (if (is_card_authorized authFile "").1 then "AUTHORIZED" else "DENIED") := by
  refine ⟨rfl, fun raw h => ⟨?_, ?_, ?_⟩⟩ <;> simp [handle_client, h]

/-- Witness for C2_amended at a concrete input: a whitespace-only payload
against an empty well-formed store. -/
theorem C2_amended_witness :
    pyStrip " " = "" ∧
    (handle_client (FileState.good ⟨[]⟩) (FileState.good []) "t0" (ReadResult.payload " ")).appended
      = [⟨"", "t0", (is_card_authorized (FileState.good ⟨[]⟩) "").1⟩] :=
  ⟨by decide, ((C2_amended (FileState.good ⟨[]⟩) (FileState.good []) "t0").2 " " (by decide)).2.1⟩

/-- Claim C3: the code has no mutual-exclusion boundary around
`save_access_log`, whose read-modify-write runs concurrently in handler
threads.  Under the interleaving in which both threads read the (empty) log
before either writes, the second write overwrites the first: the persisted
log ends with 1 entry instead of 2, losing the first thread's entry — while
the same two appends run back to back yield both entries in submission
order. -/
theorem C3_lost_update :
    (runRace ⟨"card0", "t0", false⟩ ⟨"card1", "t1", false⟩ (FileState.good [])
        [RaceAction.read0, RaceAction.read1, RaceAction.write0, RaceAction.write1]).file
      = FileState.good [⟨"card1", "t1", false⟩] ∧
    (readLog (runRace ⟨"card0", "t0", false⟩ ⟨"card1", "t1", false⟩ (FileState.good [])
        [RaceAction.read0, RaceAction.read1, RaceAction.write0, RaceAction.write1]).file).length
      = 1 ∧
    (runRace ⟨"card0", "t0", false⟩ ⟨"card1", "t1", false⟩ (FileState.good [])
        [RaceAction.read0, RaceAction.write0, RaceAction.read1, RaceAction.write1]).file
      = FileState.good [⟨"card0", "t0", false⟩, ⟨"card1", "t1", false⟩] := by
  decide

/-- Claim C4: the authorization check is a linear scan returning the
`authorized` value (absent read as `false`) of the first record whose `id`
equals the credential id, and `false` when no record matches; in particular
any id matching no record is denied. -/
theorem C4_linear_scan (cards : List Card) (cardId : String) :
    lookupAuth cards cardId =
      (match cards.find? (fun c => c.id == some cardId) with
        | some c => c.authorized.getD false
        | none => false) ∧
    ((∀ c ∈ cards, c.id ≠ some cardId) → lookupAuth cards cardId = false) := by
  constructor
  · induction cards with
    | nil => rfl
    | cons c rest ih =>
      cases h : (c.id == some cardId) <;>
        simp [lookupAuth, List.find?, h, ih]
  · intro habs
    induction cards with
    | nil => rfl
    | cons c rest ih =>
      have hc : (c.id == some cardId) = false := by
        simpa using habs c (List.mem_cons_self c rest)
      simp only [lookupAuth, hc, Bool.false_eq_true, if_false]
      exact ih fun d hd => habs d (List.mem_cons_of_mem c hd)

/-- Witness for C4_linear_scan at a concrete input: a one-record store and
an id absent from it. -/
theorem C4_witness :
    (∀ c ∈ ([⟨some "0xaa", some "n", some true⟩] : List Card), c.id ≠ some "0xbb") ∧
    lookupAuth [⟨some "0xaa", some "n", some true⟩] "0xbb" = false :=
  ⟨by decide, (C4_linear_scan [⟨some "0xaa", some "n", some true⟩] "0xbb").2 (by decide)⟩

/-- Claim C5: every connection delivering a non-empty (after trimming)
credential appends exactly one log entry, whose `card_id` is the trimmed
payload and whose `authorized` field is the computed decision, and the
persisted log becomes the old entries plus exactly that entry. -/
theorem C5_one_entry_per_credential (authFile : FileState Store)
    (logFile : FileState (List LogEntry)) (ts raw : String)
    (hne : pyStrip raw ≠ "") :
    (handle_client authFile logFile ts (ReadResult.payload raw)).appended
        = [⟨pyStrip raw, ts, (is_card_authorized authFile (pyStrip raw)).1⟩] ∧
    (handle_client authFile logFile ts (ReadResult.payload raw)).decision
        = some (is_card_authorized authFile (pyStrip raw)).1 ∧
    (handle_client authFile logFile ts (ReadResult.payload raw)).logFile
        = FileState.good
            (readLog logFile ++ [⟨pyStrip raw, ts, (is_card_authorized authFile (pyStrip raw)).1⟩]) ∧
    (readLog (handle_client authFile logFile ts (ReadResult.payload raw)).logFile).length
        = (readLog logFile).length + 1 := by
  refine ⟨rfl, rfl, rfl, ?_⟩
  simp [handle_client, save_access_log, readLog]

/-- Witness for C5_one_entry_per_credential at a concrete input: the
default store and a payload with surrounding whitespace around the admin
id. -/
theorem C5_witness :
    pyStrip " 0x1a2b3c4d " ≠ "" ∧
    (handle_client (FileState.good defaultCards) (FileState.good []) "t0"
        (ReadResult.payload " 0x1a2b3c4d ")).appended
      = [⟨"0x1a2b3c4d", "t0", true⟩] := by
  refine ⟨by decide, ?_⟩
  have h := (C5_one_entry_per_credential (FileState.good defaultCards) (FileState.good [])
    "t0" " 0x1a2b3c4d " (by decide)).1
  rw [h]
  decide

/-- Claim C6: adding a credential id that already exists in the persisted
store leaves the store file exactly as it was (no duplicate record, no
mutation of the existing record) and reports a conflict instead of raising. -/
theorem C6_add_existing_noop (fs : FileState Store) (card_id name : String)
    (authorized : Bool) (h : ∃ c ∈ (load_cards fs).cards, c.id = some card_id) :
    add_card fs card_id name authorized = (fs, AddResult.conflict) := by
  obtain ⟨c, hc, hid⟩ := h
  have hany : (load_cards fs).cards.any (cardMatches card_id) = true :=
    List.any_eq_true.2 ⟨c, hc, by simp [cardMatches, hid]⟩
  simp [add_card, hany]

/-- Witness for C6_add_existing_noop at a concrete input: re-adding an
existing id with a different name and status changes nothing and reports a
conflict. -/
theorem C6_witness :
    (∃ c ∈ (load_cards (FileState.good ⟨[⟨some "0xaa", some "n", some true⟩]⟩)).cards,
        c.id = some "0xaa") ∧
    add_card (FileState.good ⟨[⟨some "0xaa", some "n", some true⟩]⟩) "0xaa" "other" false
      = (FileState.good ⟨[⟨some "0xaa", some "n", some true⟩]⟩, AddResult.conflict) :=
  ⟨by decide, C6_add_existing_noop _ "0xaa" "other" false (by decide)⟩

/-- Claim C7, counterexample.  The claim says the simulation backend of
the unlock operation performs the same timed open-hold-close sequence as
the physical backend.  In the code, the simulation branch only prints a
message and returns immediately: its trace holds the door for 0 seconds and
contains no drive transitions, while the physical trace holds for
`DOOR_OPEN_SECONDS` = 3 seconds. -/
theorem C7_counterexample :
    holdTime (unlock_door false) = 0 ∧
    driveEvents (unlock_door false) = [] ∧
    holdTime (unlock_door true) = DOOR_OPEN_SECONDS ∧
    DOOR_OPEN_SECONDS ≠ 0 := by
  decide

/-- Claim C7, amended.  The physical backend drives the relay open, holds
for `DOOR_OPEN_SECONDS` = 3 seconds, then drives it closed; the simulation
backend only emits one simulation log message naming that duration and
returns immediately, with no drive transitions and no timed hold, so the
two backends' observable unlock behaviors differ. -/
theorem C7_amended :
    unlock_door true = [LockEvent.driveOpen, LockEvent.hold DOOR_OPEN_SECONDS,
      LockEvent.driveClosed] ∧
    unlock_door false = [LockEvent.simLog DOOR_OPEN_SECONDS] ∧
    holdTime (unlock_door true) = DOOR_OPEN_SECONDS ∧
    driveEvents (unlock_door true) = [LockEvent.driveOpen, LockEvent.driveClosed] ∧
    holdTime (unlock_door false) = 0 ∧
    driveEvents (unlock_door false) = [] := by
  decide

/-- Claim C8: writing the Authorization Store (or the Audit Log) and
reading it back with no intervening edits reproduces an equal collection;
this holds through the per-card JSON-object encoding with optional fields
as well. -/
theorem C8_roundtrip (d : Store) (l : List LogEntry) :
    load_cards (save_cards d) = d ∧
    readLog (write_log l) = l ∧
    decodeStore (encodeStore d) = d := by
  refine ⟨rfl, rfl, ?_⟩
  obtain ⟨cards⟩ := d
  simp only [encodeStore, decodeStore, Store.mk.injEq]
  induction cards with
  | nil => rfl
  | cons c rest ih => simp [decodeCard_encodeCard, ih]

/-- Claim C9: the delete operation removes every record whose `id` equals
the given id, keeps all other records in their original order, and when
nothing matches it does not rewrite the store file at all. -/
theorem C9_delete_all_matching (fs : FileState Store) (card_id : String) :
    (load_cards (delete_card fs card_id).1).cards
        = ((load_cards fs).cards.filter fun c => !(cardMatches card_id c)) ∧
    ((∀ c ∈ (load_cards fs).cards, c.id ≠ some card_id) →
      delete_card fs card_id = (fs, false)) := by
  constructor
  · by_cases h : ((load_cards fs).cards.filter fun c => !(cardMatches card_id c)).length
        < (load_cards fs).cards.length
    · simp only [delete_card]
      rw [if_pos h]
      rfl
    · have heq := filter_eq_of_not_length_lt (fun c => !(cardMatches card_id c))
        (load_cards fs).cards h
      simp only [delete_card]
      rw [if_neg h]
      exact heq.symm
  · intro habs
    have hall : ∀ c ∈ (load_cards fs).cards, (!(cardMatches card_id c)) = true := by
      intro c hc
      simp [cardMatches, habs c hc]
    have heq : ((load_cards fs).cards.filter fun c => !(cardMatches card_id c))
        = (load_cards fs).cards := List.filter_eq_self.2 hall
    have hnot : ¬ ((load_cards fs).cards.filter fun c => !(cardMatches card_id c)).length
        < (load_cards fs).cards.length := by
      rw [heq]
      exact Nat.lt_irrefl _
    simp only [delete_card]
    rw [if_neg hnot]

/-- Witness for C9_delete_all_matching at a concrete input: deleting an id
absent from a one-card store leaves the file untouched and reports no
deletion. -/
theorem C9_witness :
    (∀ c ∈ (load_cards (FileState.good ⟨[⟨some "0xaa", none, none⟩]⟩)).cards,
        c.id ≠ some "0xzz") ∧
    delete_card (FileState.good ⟨[⟨some "0xaa", none, none⟩]⟩) "0xzz"
      = (FileState.good ⟨[⟨some "0xaa", none, none⟩]⟩, false) :=
  ⟨by decide, (C9_delete_all_matching _ "0xzz").2 (by decide)⟩

/-- Claim C10: when the record matching the queried id lacks the
`authorized` field (and, per the data model, ids are unique so no other
record carries that id), the check reads `card.get("authorized", False)`
and returns `false`: a malformed matching record is fail-closed. -/
theorem C10_missing_field_denied (cards : List Card) (cardId : String) (c : Card)
    (hmem : c ∈ cards) (hid : c.id = some cardId) (hnone : c.authorized = none)
    (huniq : ∀ c2 ∈ cards, c2.id = some cardId → c2 = c) :
    lookupAuth cards cardId = false := by
  induction cards with
  | nil => exact absurd hmem (List.not_mem_nil c)
  | cons a rest ih =>
    by_cases ha : a.id = some cardId
    · have hac : a = c := huniq a (List.mem_cons_self a rest) ha
      subst hac
      simp [lookupAuth, hid, hnone]
    · have hmem2 : c ∈ rest := by
        rcases List.mem_cons.1 hmem with h | h
        · exact absurd (h ▸ hid) ha
        · exact h
      have hbeq : (a.id == some cardId) = false := by simpa using ha
      simp only [lookupAuth, hbeq, Bool.false_eq_true, if_false]
      exact ih hmem2 fun c2 hc2 => huniq c2 (List.mem_cons_of_mem a hc2)

/-- Witness for C10_missing_field_denied at a concrete input: a store whose
only record matches the queried id but has no `authorized` field. -/
theorem C10_witness :
    (⟨some "0xaa", some "n", none⟩ : Card) ∈ ([⟨some "0xaa", some "n", none⟩] : List Card) ∧
    lookupAuth [⟨some "0xaa", some "n", none⟩] "0xaa" = false :=
  ⟨by decide,
    C10_missing_field_denied [⟨some "0xaa", some "n", none⟩] "0xaa"
      ⟨some "0xaa", some "n", none⟩ (by decide) (by decide) (by decide) (by decide)⟩
